import Mathlib

/-!
# A verified model of the gogobot server-side bot detector

This file gives a shallow embedding, in Lean 4, of the gogobot Go library:
the attribute collector, the built-in detectors, the verdict resolver, the
browser parser and the version comparator, together with theorems checking
the library's documented behaviour.

Modelling conventions:
* Go strings are Lean `String`s; scans work on `String.data` (`List Char`).
* `strings.ToLower` is modelled character-wise (all patterns are ASCII).
* Go's `http.Header` is modelled as an association list of
  (canonical-name, value) pairs; `Header.Get` returns the first value or "".
* Go's `regexp` patterns are hand-translated to executable matchers with
  Go `regexp` (RE2 leftmost-first) semantics; `.` does not match newline.
* Go map iteration order is unspecified; the detector registry is modelled
  as a list in the order of the source's map literal.
* A detector's `nil` result pointer is `Option.none`; a panic is the
  `Except.error` branch; a Go `error` return is an `Option String`.
-/

namespace Gogobot

/-- The character class `\s` of Go's `regexp` package: `[\t\n\f\r ]`. -/
def isGoRegexSpace (c : Char) : Bool :=
  c == ' ' || c == '\t' || c == '\n' || c == '\x0c' || c == '\r'

/-- `unicode.IsSpace` as used by `strings.TrimSpace`, restricted to the
Latin-1 range: `[\t\n\v\f\r ]`, NEL and NBSP. -/
def isGoUnicodeSpace (c : Char) : Bool :=
  isGoRegexSpace c || c == '\x0b' || c == '\x85' || c == '\xa0'

/-- Scan for `sub` as a contiguous sublist of the second argument. -/
def infixSearch (sub : List Char) : List Char → Bool
  | [] => sub.isEmpty
  | c :: rest => sub.isPrefixOf (c :: rest) || infixSearch sub rest

/-- `strings.Contains(s, sub)`. -/
def goContains (s sub : String) : Bool :=
  infixSearch sub.data s.data

/-- `strings.ToLower`, character-wise (the source only matches ASCII patterns). -/
def goToLower (s : String) : String :=
  String.mk (s.data.map Char.toLower)

/-- `strings.TrimSpace`. -/
def goTrimSpace (s : String) : String :=
  String.mk (((s.data.dropWhile isGoUnicodeSpace).reverse.dropWhile isGoUnicodeSpace).reverse)

/-- Matcher for an end-anchored Go regex of the form `before.after$`
(the `.` is the regex wildcard, any character except newline): true iff the
text ends with `before`, one non-newline character, then `after`. -/
def wildcardEndsWith (l before after : List Char) : Bool :=
  let n := before.length + 1 + after.length
  if n ≤ l.length then
    let t := l.drop (l.length - n)
    (t.take before.length == before) &&
      (match t.drop before.length with
       | c :: rest => (c != '\n') && (rest == after)
       | [] => false)
  else false

/-- `BotKind` is a string type in the source (`types.go`). -/
abbrev BotKind := String

def BotKindAwesomium : BotKind := "awesomium"
def BotKindCef : BotKind := "cef"
def BotKindCefSharp : BotKind := "cefsharp"
def BotKindCoachJS : BotKind := "coachjs"
def BotKindElectron : BotKind := "electron"
def BotKindFMiner : BotKind := "fminer"
def BotKindGeb : BotKind := "geb"
def BotKindNightmareJS : BotKind := "nightmarejs"
def BotKindPhantomas : BotKind := "phantomas"
def BotKindPhantomJS : BotKind := "phantomjs"
def BotKindRhino : BotKind := "rhino"
def BotKindSelenium : BotKind := "selenium"
def BotKindSequentum : BotKind := "sequentum"
def BotKindSlimerJS : BotKind := "slimerjs"
def BotKindWebDriverIO : BotKind := "webdriverio"
def BotKindWebDriver : BotKind := "webdriver"
def BotKindHeadlessChrome : BotKind := "headless_chrome"
def BotKindPlaywright : BotKind := "playwright"
def BotKindPuppeteer : BotKind := "puppeteer"
def BotKindCurl : BotKind := "curl"
def BotKindWget : BotKind := "wget"
def BotKindBot : BotKind := "bot"
def BotKindCrawler : BotKind := "crawler"
def BotKindSpider : BotKind := "spider"
def BotKindUnknown : BotKind := "unknown"

/-- Modelled from the spec: the AI-agent sub-taxonomy of the kind enum
(AI-crawler-for-training, conversational-AI-browsing-agent,
generic-AI-operator-bot, specific-vendor-assistant, generic-AI-agent).
The declaration of these five constants is absent from `src/` (they are
used by the detector taxonomy and by `IsGPTAgent`); their string values
are chosen distinct from every other kind, which is all the code observes. -/
def BotKindGPTBot : BotKind := "gptbot"

/-- Modelled from the spec: see `BotKindGPTBot`. -/
def BotKindChatGPT : BotKind := "chatgpt"

/-- Modelled from the spec: see `BotKindGPTBot`. -/
def BotKindOpenAI : BotKind := "openai"

/-- Modelled from the spec: see `BotKindGPTBot`. -/
def BotKindClaude : BotKind := "claude"

/-- Modelled from the spec: see `BotKindGPTBot`. -/
def BotKindAIAgent : BotKind := "ai_agent"

/-- Source collection states (`State` in `types.go`). -/
inductive CompState where
  | success
  | undefined
  | notFunction
  | unexpectedBehaviour
  | nullState
deriving DecidableEq

/-- A collected attribute: `SuccessComponent` (whose `State` field is always
`StateSuccess` at every construction site in the source) or `ErrorComponent`. -/
inductive Component (α : Type) where
  | ok (value : α)
  | err (state : CompState) (msg : String)

/-- `GetState()`. -/
def Component.getState {α : Type} : Component α → CompState
  | .ok _ => .success
  | .err s _ => s

/-- `GetValue()`: an `ErrorComponent` returns the zero value of its type. -/
def Component.getValue {α : Type} [Inhabited α] : Component α → α
  | .ok v => v
  | .err _ _ => default

/-- `BotDetectionResult`: the verdict value type. -/
structure BotDetectionResult where
  bot : Bool
  botKind : BotKind := ""
deriving DecidableEq

/-- `ComponentDict`: the attribute bag collected from one request. -/
structure ComponentDict where
  userAgent : Component String
  xForwardedFor : Component String
  xRealIP : Component String
  acceptLanguage : Component String
  acceptEncoding : Component String
  acceptCharset : Component String
  accept : Component String
  connection : Component String
  cacheControl : Component String
  upgradeInsecure : Component Bool
  dnt : Component String
  headers : Component (List (String × String))
  contentLength : Component Int
  requestMethod : Component String
  requestPath : Component String
  requestQuery : Component String
  remoteAddr : Component String
  headerOrder : Component (List String)
  headerCount : Component Nat
  missingCommonHeaders : Component (List String)

/-- `DetectorFunc`: a detector; `none` models a nil result pointer. -/
abbrev DetectorFunc := ComponentDict → Option BotDetectionResult

/-- An HTTP request, reduced to the attributes the source reads. Headers are
(canonical-name, value) pairs with distinct names, as produced by
`http.Header.Set`/`Add` at the call sites modelled here. -/
structure Request where
  headers : List (String × String)
  method : String := "GET"
  path : String := "/"
  query : String := ""
  remoteAddr : String := ""
  contentLength : Int := 0

/-- `http.Header.Get`: first value for the name, or "" when absent. -/
def Request.get (req : Request) (name : String) : String :=
  match req.headers.find? (fun kv => kv.1 == name) with
  | some kv => kv.2
  | none => ""

/-- The distinct header names of the request (Go: the keys of the header
map; their iteration order is unspecified, the first-occurrence order is
fixed here). -/
def Request.headerNames (req : Request) : List String :=
  (req.headers.map Prod.fst).dedup

/-- `getUserAgent`: the only source that distinguishes an absent header. -/
def getUserAgent (req : Request) : Component String :=
  if req.get "User-Agent" = "" then
    .err .undefined "User-Agent header is missing"
  else
    .ok (req.get "User-Agent")

def getXForwardedFor (req : Request) : Component String :=
  .ok (req.get "X-Forwarded-For")

def getXRealIP (req : Request) : Component String :=
  .ok (req.get "X-Real-IP")

def getAcceptLanguage (req : Request) : Component String :=
  .ok (req.get "Accept-Language")

def getAcceptEncoding (req : Request) : Component String :=
  .ok (req.get "Accept-Encoding")

def getAcceptCharset (req : Request) : Component String :=
  .ok (req.get "Accept-Charset")

def getAccept (req : Request) : Component String :=
  .ok (req.get "Accept")

def getConnection (req : Request) : Component String :=
  .ok (req.get "Connection")

def getCacheControl (req : Request) : Component String :=
  .ok (req.get "Cache-Control")

def getUpgradeInsecureRequests (req : Request) : Component Bool :=
  .ok (req.get "Upgrade-Insecure-Requests" == "1")

def getDNT (req : Request) : Component String :=
  .ok (req.get "DNT")

def getHeaders (req : Request) : Component (List (String × String)) :=
  .ok req.headers

def getContentLength (req : Request) : Component Int :=
  .ok req.contentLength

def getRequestMethod (req : Request) : Component String :=
  .ok req.method

def getRequestPath (req : Request) : Component String :=
  .ok req.path

def getRequestQuery (req : Request) : Component String :=
  .ok req.query

def getRemoteAddr (req : Request) : Component String :=
  .ok req.remoteAddr

def getHeaderOrder (req : Request) : Component (List String) :=
  .ok req.headerNames

def getHeaderCount (req : Request) : Component Nat :=
  .ok req.headerNames.length

/-- The five commonly-expected header names checked by the collector. -/
def commonHeadersList : List String :=
  ["Accept", "Accept-Language", "Accept-Encoding", "Connection", "User-Agent"]

def getMissingCommonHeaders (req : Request) : Component (List String) :=
  .ok (commonHeadersList.filter (fun h => req.get h == ""))

/-- `collectAllSources`: builds the attribute bag from a request. -/
def collectAllSources (req : Request) : ComponentDict where
  userAgent := getUserAgent req
  xForwardedFor := getXForwardedFor req
  xRealIP := getXRealIP req
  acceptLanguage := getAcceptLanguage req
  acceptEncoding := getAcceptEncoding req
  acceptCharset := getAcceptCharset req
  accept := getAccept req
  connection := getConnection req
  cacheControl := getCacheControl req
  upgradeInsecure := getUpgradeInsecureRequests req
  dnt := getDNT req
  headers := getHeaders req
  contentLength := getContentLength req
  requestMethod := getRequestMethod req
  requestPath := getRequestPath req
  requestQuery := getRequestQuery req
  remoteAddr := getRemoteAddr req
  headerOrder := getHeaderOrder req
  headerCount := getHeaderCount req
  missingCommonHeaders := getMissingCommonHeaders req

/-- The user-agent signature taxonomy, in the source's order (most specific
first; the generic `bot`/`crawler`/`spider`/`scraper` group is last). -/
def specificBots : List (BotKind × List String) :=
  [(BotKindGPTBot, ["gptbot", "gpt-bot"]),
   (BotKindChatGPT, ["chatgpt-user", "chatgpt", "openai-chatgpt"]),
   (BotKindOpenAI, ["openai", "openai-bot", "openai-crawler"]),
   (BotKindClaude, ["claude-web", "claude", "anthropic"]),
   (BotKindAIAgent, ["ai-agent", "aiagent", "ai_agent", "artificial intelligence",
                     "language model", "llm", "gpt-", "claude-", "bard", "gemini-pro"]),
   (BotKindPhantomJS, ["phantomjs"]),
   (BotKindSelenium, ["selenium", "webdriver"]),
   (BotKindElectron, ["electron"]),
   (BotKindHeadlessChrome, ["headlesschrome", "headless"]),
   (BotKindPlaywright, ["playwright"]),
   (BotKindPuppeteer, ["puppeteer"]),
   (BotKindCurl, ["curl/"]),
   (BotKindWget, ["wget/"]),
   (BotKindCrawler, ["googlebot", "bingbot", "slurp", "duckduckbot", "baiduspider"]),
   (BotKindBot, ["bot", "crawler", "spider", "scraper"])]

/-- The plain-substring suspicious patterns of the secondary pass
(those without regex metacharacters). -/
def suspiciousSubstrings : List String :=
  ["python", "java", "go-http-client", "libwww-perl", "httpclient",
   "okhttp", "requests", "urllib"]

/-- The secondary suspicious-pattern pass of `detectUserAgent`, with each Go
regex hand-translated: `^$` matches only the empty text; `^\s*$` matches
all-whitespace text; `mozilla/5.0$` and `mozilla/4.0$` are end-anchored with
a `.` wildcard; the remaining patterns are plain substring searches. -/
def suspiciousMatch (ua : String) : Bool :=
  ua.data.isEmpty ||
  ua.data.all isGoRegexSpace ||
  wildcardEndsWith ua.data "mozilla/5".data "0".data ||
  wildcardEndsWith ua.data "mozilla/4".data "0".data ||
  suspiciousSubstrings.any (fun p => goContains ua p)

/-- `detectUserAgent`: the user-agent signature detector. -/
def detectUserAgent (c : ComponentDict) : Option BotDetectionResult :=
  match c.userAgent with
  | .err _ _ => some { bot := false }
  | .ok v =>
    let ua := goToLower v
    match specificBots.find? (fun bt => bt.2.any (fun p => goContains ua p)) with
    | some bt => some { bot := true, botKind := bt.1 }
    | none =>
      if suspiciousMatch ua then some { bot := true, botKind := BotKindUnknown }
      else some { bot := false }

/-- The automation-revealing header names checked by `detectHeaders`. -/
def automationHeaders : List String :=
  ["X-Requested-With", "X-DevTools-Emulate-Network-Conditions-Client-Id",
   "Chrome-Proxy", "Purpose"]

/-- `detectHeaders`: flags the presence of automation-specific headers. -/
def detectHeaders (c : ComponentDict) : Option BotDetectionResult :=
  match c.headers with
  | .err _ _ => some { bot := false }
  | .ok hs =>
    if automationHeaders.any (fun name => hs.any (fun kv => kv.1 == name)) then
      some { bot := true, botKind := BotKindUnknown }
    else some { bot := false }

/-- `detectHeaderCount`: flags fewer than 3 or more than 30 headers. -/
def detectHeaderCount (c : ComponentDict) : Option BotDetectionResult :=
  match c.headerCount with
  | .err _ _ => some { bot := false }
  | .ok count =>
    if count < 3 then some { bot := true, botKind := BotKindUnknown }
    else if count > 30 then some { bot := true, botKind := BotKindUnknown }
    else some { bot := false }

/-- `detectMissingHeaders`: User-Agent in the missing list flags immediately;
otherwise 4 or more missing common headers flag. -/
def detectMissingHeaders (c : ComponentDict) : Option BotDetectionResult :=
  match c.missingCommonHeaders with
  | .err _ _ => some { bot := false }
  | .ok missing =>
    if missing.contains "User-Agent" then
      some { bot := true, botKind := BotKindUnknown }
    else if 4 ≤ missing.length then
      some { bot := true, botKind := BotKindUnknown }
    else some { bot := false }

/-- `detectAcceptHeaders`: flags only when all three accept headers are empty
(this detector reads values without checking states, as the source does). -/
def detectAcceptHeaders (c : ComponentDict) : Option BotDetectionResult :=
  let accept := c.accept.getValue
  let acceptLang := c.acceptLanguage.getValue
  let acceptEnc := c.acceptEncoding.getValue
  if accept == "" && acceptLang == "" && acceptEnc == "" then
    some { bot := true, botKind := BotKindUnknown }
  else some { bot := false }

/-- `detectConnection`: flags a Connection header containing (lower-cased)
"upgrade" or "te". -/
def detectConnection (c : ComponentDict) : Option BotDetectionResult :=
  match c.connection with
  | .err _ _ => some { bot := false }
  | .ok v =>
    let conn := goToLower v
    if ["upgrade", "te"].any (fun s => goContains conn s) then
      some { bot := true, botKind := BotKindUnknown }
    else some { bot := false }

/-- `detectContentLength`: flags a GET request with positive content length. -/
def detectContentLength (c : ComponentDict) : Option BotDetectionResult :=
  match c.contentLength with
  | .err _ _ => some { bot := false }
  | .ok cl =>
    let method := c.requestMethod.getValue
    if method == "GET" && cl > 0 then
      some { bot := true, botKind := BotKindUnknown }
    else some { bot := false }

/-- `detectHeaderOrder`: flags fewer than 2 observed header names. -/
def detectHeaderOrder (c : ComponentDict) : Option BotDetectionResult :=
  match c.headerOrder with
  | .err _ _ => some { bot := false }
  | .ok order =>
    if order.length < 2 then some { bot := true, botKind := BotKindUnknown }
    else some { bot := false }

/-- `getDefaultDetectors`: the default registry. The Go source builds a map
whose iteration order is unspecified; the map literal's order is fixed here. -/
def getDefaultDetectors : List (String × DetectorFunc) :=
  [("userAgent", detectUserAgent),
   ("headers", detectHeaders),
   ("headerOrder", detectHeaderOrder),
   ("headerCount", detectHeaderCount),
   ("missingHeaders", detectMissingHeaders),
   ("acceptHeaders", detectAcceptHeaders),
   ("connection", detectConnection),
   ("contentLength", detectContentLength)]

/-- Assignment `m[name] = f` on the registry modelled as a list: replace the
entry with that name, or append a new one. -/
def assocSet (l : List (String × DetectorFunc)) (name : String) (f : DetectorFunc) :
    List (String × DetectorFunc) :=
  if l.any (fun kv => kv.1 == name) then
    l.map (fun kv => if kv.1 == name then (name, f) else kv)
  else l ++ [(name, f)]

/-- `BotDetector`: registry plus the components collected so far (`nil`
before the first `Collect`). The `detections` bookkeeping field is omitted:
no operation modelled here reads it. -/
structure BotDetector where
  components : Option ComponentDict := none
  detectorFuncs : List (String × DetectorFunc)

/-- `NewDetector()`. -/
def NewDetector : BotDetector :=
  { components := none, detectorFuncs := getDefaultDetectors }

/-- `NewDetectorWithCustomDetectors`: merges the custom detectors over the
default ones, name by name (last write wins). -/
def NewDetectorWithCustomDetectors (custom : List (String × DetectorFunc)) : BotDetector :=
  { components := none,
    detectorFuncs := custom.foldl (fun acc nf => assocSet acc nf.1 nf.2) getDefaultDetectors }

/-- One step of the resolver's loop body: run a detector, substitute a
non-bot verdict for a nil result, track the overall flag and the best
verdict under the source's replacement condition. -/
def detectFold (c : ComponentDict) (acc : BotDetectionResult × BotDetectionResult)
    (nd : String × DetectorFunc) : BotDetectionResult × BotDetectionResult :=
  let result := (nd.2 c).getD { bot := false }
  if result.bot then
    let best :=
      if !acc.2.bot ||
         (result.botKind != BotKindUnknown && acc.2.botKind == BotKindUnknown) ||
         (nd.1 == "userAgent" && result.botKind != BotKindUnknown) then
        result
      else acc.2
    ({ bot := true, botKind := acc.1.botKind }, best)
  else acc

/-- The body of `Detect` after the nil-components check. -/
def runDetectors (ds : List (String × DetectorFunc)) (c : ComponentDict) :
    BotDetectionResult :=
  let r := ds.foldl (detectFold c) ({ bot := false }, { bot := false })
  if r.2.bot then r.2 else r.1

/-- `Collect`: always succeeds; the returned error is always `none`. -/
def BotDetector.Collect (d : BotDetector) (req : Request) :
    BotDetector × ComponentDict × Option String :=
  let c := collectAllSources req
  ({ d with components := some c }, c, none)

/-- `Detect`: panics (modelled as `.error`) when called before `Collect`. -/
def BotDetector.Detect (d : BotDetector) : Except String BotDetectionResult :=
  match d.components with
  | none => .error "BotDetector.Detect() called before Collect()"
  | some c => .ok (runDetectors d.detectorFuncs c)

/-- `DetectFromRequest`: collect, then detect; pairs the verdict with the
Go `error` value (always `nil`). -/
def BotDetector.DetectFromRequest (d : BotDetector) (req : Request) :
    Except String (BotDetectionResult × Option String) :=
  let r := d.Collect req
  match r.2.2 with
  | some e => .ok ({ bot := false }, some e)
  | none => r.1.Detect.map (fun v => (v, none))

/-- `QuickCheck`: builds a detector from the two "quick" detectors through
`NewDetectorWithCustomDetectors` and runs it. -/
def QuickCheck (req : Request) : Except String (BotDetectionResult × Option String) :=
  let quickDetectors : List (String × DetectorFunc) :=
    [("userAgent", detectUserAgent), ("missingHeaders", detectMissingHeaders)]
  (NewDetectorWithCustomDetectors quickDetectors).DetectFromRequest req

/-- The request built by `IsBotUserAgent`: `http.NewRequest("GET", "/", nil)`
followed by `Header.Set("User-Agent", ua)`. -/
def uaOnlyRequest (ua : String) : Request :=
  { headers := [("User-Agent", ua)] }

/-- `IsBotUserAgent`: runs only the user-agent detector over a synthesized
single-header request. -/
def IsBotUserAgent (userAgent : String) : Bool × BotKind :=
  let r := (NewDetector.Collect (uaOnlyRequest userAgent)).2.1
  let result := (detectUserAgent r).getD { bot := false }
  if result.bot then (true, result.botKind) else (false, "")

/-- `IsGPTAgent`: restricts `IsBotUserAgent` to the AI kinds. -/
def IsGPTAgent (userAgent : String) : Bool × BotKind :=
  let r := IsBotUserAgent userAgent
  if !r.1 then (false, "")
  else if r.2 == BotKindGPTBot || r.2 == BotKindChatGPT || r.2 == BotKindOpenAI ||
          r.2 == BotKindClaude || r.2 == BotKindAIAgent then
    (true, r.2)
  else (false, "")

/-- `BrowserName` is a string type in the source. -/
abbrev BrowserName := String

/-- Modelled from the spec: the browser-name enum declaration is absent from
`src/` (only its uses are). The names follow the spec's browser identities;
the string values are only observable through the fallback containment pass,
which pairs each name with its own lower-case token. -/
def BrowserChrome : BrowserName := "chrome"

/-- Modelled from the spec: see `BrowserChrome`. -/
def BrowserFirefox : BrowserName := "firefox"

/-- Modelled from the spec: see `BrowserChrome`. -/
def BrowserSafari : BrowserName := "safari"

/-- Modelled from the spec: see `BrowserChrome`. -/
def BrowserEdge : BrowserName := "edge"

/-- Modelled from the spec: see `BrowserChrome`. -/
def BrowserOpera : BrowserName := "opera"

/-- Modelled from the spec: see `BrowserChrome`. -/
def BrowserIE : BrowserName := "ie"

/-- Modelled from the spec: see `BrowserChrome`. -/
def BrowserYandex : BrowserName := "yandex"

/-- Modelled from the spec: see `BrowserChrome`. -/
def BrowserVivaldi : BrowserName := "vivaldi"

/-- Modelled from the spec: see `BrowserChrome`. -/
def BrowserBrave : BrowserName := "brave"

/-- Modelled from the spec: see `BrowserChrome`. -/
def BrowserSamsung : BrowserName := "samsungbrowser"

/-- Modelled from the spec: see `BrowserChrome`. -/
def BrowserUCBrowser : BrowserName := "ucbrowser"

/-- Modelled from the spec: see `BrowserChrome`. -/
def BrowserUnknown : BrowserName := "unknown"

/-- `BrowserInfo` (declaration absent from `src/`; fields per the spec's
Browser Identity record and every use site in `src/browser.go`). -/
structure BrowserInfo where
  name : BrowserName := ""
  version : String := ""
  rawUA : String := ""
  isBot : Bool := false
  botKind : BotKind := ""
deriving DecidableEq

/-- Greedy matcher for the regex tail `(?:\.[0-9]+)*`: repeatedly consume a
dot followed by a nonempty digit run. Returns (consumed, rest). The fuel is
an upper bound on iterations; each iteration consumes at least two chars. -/
def verTailFuel : Nat → List Char → List Char × List Char
  | 0, l => ([], l)
  | fuel + 1, l =>
    match l with
    | '.' :: rest =>
      let ds := rest.takeWhile Char.isDigit
      if ds.isEmpty then ([], l)
      else
        let r := verTailFuel fuel (rest.drop ds.length)
        ('.' :: (ds ++ r.1), r.2)
    | _ => ([], l)

/-- Greedy matcher for the version capture `[0-9]+(?:\.[0-9]+)*` anchored at
the start of `l`: `none` when no digit starts `l`. -/
def matchVersionAt (l : List Char) : Option (List Char × List Char) :=
  let ds := l.takeWhile Char.isDigit
  if ds.isEmpty then none
  else
    let r := verTailFuel l.length (l.drop ds.length)
    some (ds ++ r.1, r.2)

/-- Anchored matcher for `alt\/([0-9]+(?:\.[0-9]+)*)` with literal
alternatives tried in the regex's order (Go regexp is leftmost-first, so a
failing alternative backtracks to the next one). Returns the capture. -/
def matchTokenAt (alts : List (List Char)) (l : List Char) : Option (List Char) :=
  alts.findSome? (fun a =>
    if a.isPrefixOf l then (matchVersionAt (l.drop a.length)).map (fun r => r.1)
    else none)

/-- Leftmost search for `matchTokenAt`: the first position where the whole
pattern matches wins. -/
def findTokenVersion (alts : List (List Char)) : List Char → Option (List Char)
  | [] => matchTokenAt alts []
  | c :: rest =>
    match matchTokenAt alts (c :: rest) with
    | some v => some v
    | none => findTokenVersion alts rest

/-- Leftmost matcher for `version\/([0-9]+(?:\.[0-9]+)*).*word`: after the
version capture, `word` must occur with no newline before it (the regex `.`
does not cross newlines; `word` contains no digit, dot or newline, so the
greedy capture cannot hide an occurrence). -/
def findVersionThenWord (word : List Char) : List Char → Option (List Char)
  | [] => none
  | c :: rest =>
    (if ("version/".data).isPrefixOf (c :: rest) then
      match matchVersionAt ((c :: rest).drop 8) with
      | some r => if infixSearch word (r.2.takeWhile (fun x => x != '\n')) then some r.1 else none
      | none => none
    else none).orElse (fun _ => findVersionThenWord word rest)

/-- Rightmost anchored token search within the no-newline segment of `l`,
implementing a greedy `.*` before the token: the largest offset whose suffix
matches wins. -/
def rightmostTokenVersion (alts : List (List Char)) (l : List Char) : Option (List Char) :=
  let seg := l.takeWhile (fun x => x != '\n')
  (List.range (seg.length + 1)).reverse.findSome? (fun i => matchTokenAt alts (l.drop i))

/-- Anchored matcher for `mobile\/[0-9a-z]+.*safari\/(ver)`: a nonempty
`[0-9a-z]` run after `mobile/` (greedy, backtracking to shorter runs), then
a greedy `.*`, then the `safari/` version capture. -/
def mobileSafariAt (l : List Char) : Option (List Char) :=
  if ("mobile/".data).isPrefixOf l then
    let after := l.drop 7
    let run := after.takeWhile (fun c => c.isDigit || (c ≥ 'a' && c ≤ 'z'))
    (List.range run.length).reverse.findSome? (fun k =>
      rightmostTokenVersion ["safari/".data] (after.drop (k + 1)))
  else none

/-- Leftmost search for `mobileSafariAt`. -/
def findMobileSafari : List Char → Option (List Char)
  | [] => none
  | c :: rest =>
    match mobileSafariAt (c :: rest) with
    | some v => some v
    | none => findMobileSafari rest

/-- Anchored matcher for `trident\/.*rv:(ver)`. -/
def tridentAt (l : List Char) : Option (List Char) :=
  if ("trident/".data).isPrefixOf l then
    rightmostTokenVersion ["rv:".data] (l.drop 8)
  else none

/-- Leftmost search for `tridentAt`. -/
def findTridentRv : List Char → Option (List Char)
  | [] => none
  | c :: rest =>
    match tridentAt (c :: rest) with
    | some v => some v
    | none => findTridentRv rest

/-- `cleanSafariVersion`: both branches of the source return the version
unchanged; the mobile test is kept for fidelity. -/
def cleanSafariVersion (version ua : String) : String :=
  if goContains ua "mobile" || goContains ua "iphone" || goContains ua "ipad" then version
  else version

/-- The primary browser patterns of `parseBrowserNameAndVersion`, in the
source's order (Edge before the Chromium rebrands before Opera before Chrome
before Firefox before Safari before IE), each as an executable matcher
returning the version capture. -/
def primaryPatterns : List (BrowserName × (List Char → Option (List Char))) :=
  [(BrowserEdge, findTokenVersion ["edge/".data, "edga/".data, "edgios/".data, "edg/".data]),
   (BrowserYandex, findTokenVersion ["yabrowser/".data]),
   (BrowserVivaldi, findTokenVersion ["vivaldi/".data]),
   (BrowserBrave, findTokenVersion ["brave/".data]),
   (BrowserSamsung, findTokenVersion ["samsungbrowser/".data]),
   (BrowserUCBrowser, findTokenVersion ["ucbrowser/".data]),
   (BrowserOpera, findTokenVersion ["opera/".data, "opr/".data]),
   (BrowserOpera, findVersionThenWord "opera".data),
   (BrowserChrome, findTokenVersion ["chrome/".data]),
   (BrowserChrome, findTokenVersion ["chromium/".data]),
   (BrowserFirefox, findTokenVersion ["firefox/".data]),
   (BrowserFirefox, findTokenVersion ["fxios/".data]),
   (BrowserSafari, findVersionThenWord "safari".data),
   (BrowserSafari, findMobileSafari),
   (BrowserIE, findTokenVersion ["msie ".data]),
   (BrowserIE, findTridentRv)]

/-- The fallback containment pass: the source compares the lower-cased
user agent against `string(p.name)` for these names, in this order. -/
def fallbackNames : List BrowserName :=
  [BrowserSafari, BrowserChrome, BrowserFirefox, BrowserOpera, BrowserEdge]

/-- `parseBrowserNameAndVersion`. -/
def parseBrowserNameAndVersion (ua0 : String) : BrowserName × String :=
  let ua := goToLower ua0
  match primaryPatterns.findSome? (fun p => (p.2 ua.data).map (fun v => (p.1, v))) with
  | some nv =>
    let version := String.mk nv.2
    if nv.1 = BrowserSafari then (nv.1, cleanSafariVersion version ua)
    else (nv.1, version)
  | none =>
    match fallbackNames.find? (fun n => goContains ua n) with
    | some n => (n, "")
    | none => (BrowserUnknown, "")

/-- `ParseBrowserFromUserAgent`: bot classification short-circuits browser
identity. -/
def ParseBrowserFromUserAgent (userAgent : String) : BrowserInfo :=
  if userAgent = "" then
    { name := BrowserUnknown, version := "", rawUA := userAgent }
  else
    let ua := goTrimSpace userAgent
    let r := IsBotUserAgent ua
    if r.1 then
      { name := BrowserUnknown, version := "", rawUA := ua, isBot := true, botKind := r.2 }
    else
      let nv := parseBrowserNameAndVersion ua
      { name := nv.1, version := nv.2, rawUA := ua }

/-- `ParseBrowserFromRequest`. -/
def ParseBrowserFromRequest (req : Request) : BrowserInfo :=
  ParseBrowserFromUserAgent (req.get "User-Agent")

/-- `GetBrowserInfo`: browser parse plus full detection; copies the bot
verdict into the browser info when the parser alone did not flag it. -/
def GetBrowserInfo (req : Request) :
    Except String (BrowserInfo × BotDetectionResult × Option String) :=
  let browserInfo := ParseBrowserFromRequest req
  (NewDetector.DetectFromRequest req).map (fun r =>
    let bi :=
      if r.1.bot && !browserInfo.isBot then
        { browserInfo with isBot := true, botKind := r.1.botKind }
      else browserInfo
    (bi, r.1, r.2))

/-- `strings.Split(s, ".")` on the character list: always returns at least
one (possibly empty) part. -/
def splitOnDot : List Char → List (List Char)
  | [] => [[]]
  | c :: rest =>
    match splitOnDot rest with
    | [] => [[c]]
    | s :: ss => if c = '.' then [] :: s :: ss else (c :: s) :: ss

/-- The dot-separated parts of a version string. -/
def splitParts (v : String) : List String :=
  (splitOnDot v.data).map String.mk

/-- 2^63, the magnitude bound of Go's 64-bit signed `int`. -/
def twoPow63 : Int := 9223372036854775808

/-- 2^64, the modulus of Go's 64-bit `int` arithmetic. -/
def twoPow64 : Int := 18446744073709551616

/-- Reduction of an integer into Go's 64-bit signed `int` range
`[-2^63, 2^63)`, wrapping on overflow (two's complement). -/
def wrap64 (x : Int) : Int :=
  (x + twoPow63) % twoPow64 - twoPow63

/-- `parseVersionPart`: the regex `\d+` finds the first maximal digit run;
an absent run yields 0; the run's digits are folded into a Go `int`
(64-bit on the platforms the library targets), so each
`result*10 + (char - '0')` step wraps on overflow — one `wrap64` per step
is exact because the multiply's and the add's wraps compose modulo 2^64. -/
def parseVersionPart (part : String) : Int :=
  let run := (part.data.dropWhile (fun c => !c.isDigit)).takeWhile Char.isDigit
  run.foldl (fun r c => wrap64 (r * 10 + ((c.toNat : Int) - ('0'.toNat : Int)))) 0

/-- The per-index value of the comparison loop: parse the part when the
index is in range, else 0 (Go's zero-valued `int`). -/
def versionPartAt (parts : List String) (i : Nat) : Int :=
  if i < parts.length then parseVersionPart (parts.getD i "") else 0

/-- The index loop of `compareVersions`, from `i` to `maxLen - 1`. -/
def compareLoop (parts1 parts2 : List String) (i : Nat) : Int :=
  if i < max parts1.length parts2.length then
    let p1 := versionPartAt parts1 i
    let p2 := versionPartAt parts2 i
    if p1 < p2 then -1
    else if p2 < p1 then 1
    else compareLoop parts1 parts2 (i + 1)
  else 0
termination_by max parts1.length parts2.length - i

/-- `compareVersions`: -1, 0 or 1. -/
def compareVersions (v1 v2 : String) : Int :=
  if v1 = v2 then 0
  else compareLoop (splitParts v1) (splitParts v2) 0

/-! ## Specification-side definitions

These state the spec's resolution policy, version-order semantics and token
containment in its own words, for comparison against the source model. -/

/-- The detectors' positive verdicts, in registry-iteration order, each
tagged with the reporting detector's name (a nil result counts as non-bot). -/
def positiveVerdicts (ds : List (String × DetectorFunc)) (c : ComponentDict) :
    List (String × BotDetectionResult) :=
  (ds.map (fun p => (p.1, (p.2 c).getD { bot := false }))).filter (fun q => q.2.bot)

/-- The spec's replacement rule among two existing positive verdicts: the
candidate replaces the best iff it carries a specific (non-unclassified)
kind while the best is unclassified, or it comes from the detector named
"userAgent" and carries a specific kind. -/
def chooseBest (b : BotDetectionResult) (nq : String × BotDetectionResult) :
    BotDetectionResult :=
  if (nq.2.botKind != BotKindUnknown && b.botKind == BotKindUnknown) ||
     (nq.1 == "userAgent" && nq.2.botKind != BotKindUnknown) then nq.2
  else b

/-- The spec's replacement rule including the no-best-yet case: a candidate
always becomes the best when none exists yet. -/
def replaceBest (cur : Option BotDetectionResult) (nq : String × BotDetectionResult) :
    Option BotDetectionResult :=
  match cur with
  | none => some nq.2
  | some b => some (chooseBest b nq)

/-- The verdict the spec's policy selects: fold the replacement rule over
the positive verdicts in iteration order; `none` when no detector fires. -/
def selectedVerdict (ds : List (String × DetectorFunc)) (c : ComponentDict) :
    Option BotDetectionResult :=
  (positiveVerdicts ds c).foldl replaceBest none

/-- The amended spec's segment semantics: a dot-segment's value is its
first contiguous digit run folded, digit by digit, into a 64-bit signed
integer with wraparound (so runs of 19 or more digits may come out
negative); 0 when the segment has no digits. -/
def segmentValue (s : String) : Int :=
  let run := (s.data.dropWhile (fun c => !c.isDigit)).takeWhile Char.isDigit
  run.foldl (fun r c => wrap64 (r * 10 + ((c.toNat : Int) - ('0'.toNat : Int)))) 0

/-- Zero-padding compared against the remaining right segments: -1 at a
first positive segment, 1 at a first negative (wrapped) segment, 0 when
all remaining segments are 0. -/
def zerosVersus : List Int → Int
  | [] => 0
  | b :: bs => if 0 < b then -1 else if b < 0 then 1 else zerosVersus bs

/-- The remaining left segments compared against zero-padding. -/
def versusZeros : List Int → Int
  | [] => 0
  | a :: as => if a < 0 then -1 else if 0 < a then 1 else versusZeros as

/-- The spec's pairwise integer comparison of segment lists, the shorter
list implicitly zero-padded, first unequal segment deciding. -/
def lexCompare : List Int → List Int → Int
  | [], bs => zerosVersus bs
  | a :: as, [] => versusZeros (a :: as)
  | a :: as, b :: bs => if a < b then -1 else if b < a then 1 else lexCompare as bs

/-- The amended spec's version order: split on '.', compare the parsed
segments pairwise. -/
def compareVersionsNumeric (v1 v2 : String) : Int :=
  lexCompare ((splitParts v1).map segmentValue) ((splitParts v2).map segmentValue)

/-- An Edge token (`edg`, `edge`, `edga` or `edgios`, a slash, a version)
in a lower-cased user agent, as matched by the parser's Edge pattern. -/
def edgeTokenFind : List Char → Option (List Char) :=
  findTokenVersion ["edge/".data, "edga/".data, "edgios/".data, "edg/".data]

/-- A Chrome token (`chrome/` plus a version) in a lower-cased user agent. -/
def chromeTokenFind : List Char → Option (List Char) :=
  findTokenVersion ["chrome/".data]

/-- The AI subset of the kind enum. -/
def aiKinds : List BotKind :=
  [BotKindGPTBot, BotKindChatGPT, BotKindOpenAI, BotKindClaude, BotKindAIAgent]

/-- A request on which neither the user-agent nor the missing-headers
detector fires, while the header-presence detector does (a browser-like
request carrying an `X-Requested-With` header). -/
def quickBugRequest : Request :=
  { headers := [("User-Agent", "Mozilla/5.0 (Windows NT 10.0; Win64; x64) AppleWebKit/537.36"),
                ("Accept", "text/html"),
                ("Accept-Language", "en-US"),
                ("Accept-Encoding", "gzip, deflate"),
                ("Connection", "keep-alive"),
                ("X-Requested-With", "XMLHttpRequest")] }

/-! ## Helper lemmas -/

/-- `DetectFromRequest` always reaches `Detect` with freshly collected
components and reports a nil error. -/
theorem detectFromRequest_eq (d : BotDetector) (req : Request) :
    d.DetectFromRequest req = .ok (runDetectors d.detectorFuncs (collectAllSources req), none) :=
  rfl

/-- A successful infix search means every character of the pattern occurs
in the text. -/
theorem infixSearch_subset (sub : List Char) (l : List Char)
    (h : infixSearch sub l = true) : ∀ c ∈ sub, c ∈ l := by
  induction l with
  | nil =>
    simp only [infixSearch, List.isEmpty_iff] at h
    subst h
    intro c hc
    exact absurd hc (List.not_mem_nil c)
  | cons a rest ih =>
    rw [infixSearch, Bool.or_eq_true] at h
    rcases h with h | h
    · exact fun c hc => (List.isPrefixOf_iff_prefix.mp h).subset hc
    · exact fun c hc => List.mem_cons_of_mem a (ih h c hc)

/-- Every pattern of the user-agent taxonomy has a non-whitespace character. -/
theorem specific_patterns_nonspace :
    ∀ bt ∈ specificBots, ∀ p ∈ bt.2, p.data.any (fun c => !isGoRegexSpace c) = true := by
  decide

/-- Lower-casing fixes the regex whitespace characters. -/
theorem toLower_eq_self_of_space (c : Char) (h : isGoRegexSpace c = true) :
    Char.toLower c = c := by
  simp only [isGoRegexSpace, Bool.or_eq_true, beq_iff_eq] at h
  rcases h with ((((h | h) | h) | h) | h) <;> subst h <;> decide

/-! ## C9 -/

/-- C9: Invoking `BotDetector.Detect` before any `Collect` panics, and this
is the only failure path: `Collect` always returns a nil error, and
`DetectFromRequest` always returns a verdict with a nil error. -/
theorem detect_precondition_and_totality :
    NewDetector.Detect = .error "BotDetector.Detect() called before Collect()"
    ∧ (∀ (d : BotDetector) (req : Request), (d.Collect req).2.2 = none)
    ∧ (∀ (d : BotDetector) (req : Request),
        d.DetectFromRequest req
          = .ok (runDetectors d.detectorFuncs (collectAllSources req), none)) :=
  ⟨rfl, fun _ _ => rfl, fun d req => detectFromRequest_eq d req⟩

/-! ## C2 -/

/-- C2 (code bug evaluation): on `quickBugRequest`, `QuickCheck` reports a
bot, although neither the user-agent nor the missing-headers detector fires
(resolving just those two detectors yields non-bot); the constructor it uses
merges the two quick detectors over the full default set. -/
theorem quickcheck_runs_all_default_detectors :
    QuickCheck quickBugRequest = .ok ({ bot := true, botKind := BotKindUnknown }, none)
    ∧ runDetectors [("userAgent", detectUserAgent), ("missingHeaders", detectMissingHeaders)]
        (collectAllSources quickBugRequest) = { bot := false }
    ∧ (NewDetectorWithCustomDetectors
        [("userAgent", detectUserAgent), ("missingHeaders", detectMissingHeaders)]).detectorFuncs
      = getDefaultDetectors :=
  ⟨rfl, rfl, rfl⟩

/-! ## C6 -/

/-- C6: whenever the browser parser classifies a user agent as bot, the
returned browser info carries the unknown browser name and an empty version:
browser identity and bot classification never co-occur in one parse result. -/
theorem browser_parser_bot_short_circuit (ua : String)
    (h : (ParseBrowserFromUserAgent ua).isBot = true) :
    (ParseBrowserFromUserAgent ua).name = BrowserUnknown ∧
    (ParseBrowserFromUserAgent ua).version = "" := by
  by_cases h0 : ua = ""
  · simp [ParseBrowserFromUserAgent, h0] at h
  · by_cases h1 : (IsBotUserAgent (goTrimSpace ua)).1
    · simp [ParseBrowserFromUserAgent, h0, h1]
    · simp [ParseBrowserFromUserAgent, h0, h1] at h

/-- Witness for C6 at the concrete user agent "curl/7.68.0". -/
theorem browser_parser_bot_short_circuit_witness :
    (ParseBrowserFromUserAgent "curl/7.68.0").isBot = true ∧
    ((ParseBrowserFromUserAgent "curl/7.68.0").name = BrowserUnknown ∧
     (ParseBrowserFromUserAgent "curl/7.68.0").version = "") :=
  ⟨rfl, browser_parser_bot_short_circuit "curl/7.68.0" rfl⟩

/-! ## C4 -/

/-- C4 counterexample: the empty user-agent string is not classified as bot
by the user-agent signature check as exposed through `IsBotUserAgent`,
because the collected user-agent component is an absent-outcome. -/
theorem empty_user_agent_not_flagged : IsBotUserAgent "" = (false, "") :=
  rfl

/-- C4 (amended): every nonempty user-agent string consisting only of
whitespace is classified by the user-agent signature check, through
`IsBotUserAgent`, as a bot of the unclassified kind via the secondary
suspicious-pattern pass. -/
theorem whitespace_user_agent_flagged (ua : String) (hne : ua ≠ "")
    (hws : ∀ c ∈ ua.data, isGoRegexSpace c = true) :
    IsBotUserAgent ua = (true, BotKindUnknown) := by
  have hget : (uaOnlyRequest ua).get "User-Agent" = ua := by
    simp [uaOnlyRequest, Request.get, List.find?]
  have hua : getUserAgent (uaOnlyRequest ua) = .ok ua := by
    simp [getUserAgent, hget, hne]
  have hlow : ∀ c ∈ (goToLower ua).data, isGoRegexSpace c = true := by
    intro c hc
    simp only [goToLower, List.mem_map] at hc
    obtain ⟨x, hx, rfl⟩ := hc
    rw [toLower_eq_self_of_space x (hws x hx)]
    exact hws x hx
  have hfind :
      specificBots.find? (fun bt => bt.2.any (fun p => goContains (goToLower ua) p)) = none := by
    rw [List.find?_eq_none]
    intro bt hbt
    simp only [Bool.not_eq_true, List.any_eq_false]
    intro p hp
    by_contra hcont
    rw [Bool.not_eq_false] at hcont
    obtain ⟨c0, hc0p, hc0⟩ := List.any_eq_true.mp (specific_patterns_nonspace bt hbt p hp)
    have hmem : c0 ∈ (goToLower ua).data := infixSearch_subset p.data _ hcont c0 hc0p
    rw [hlow c0 hmem] at hc0
    exact absurd hc0 (by decide)
  have hall : (goToLower ua).data.all isGoRegexSpace = true := List.all_eq_true.mpr hlow
  have hsusp : suspiciousMatch (goToLower ua) = true := by
    simp [suspiciousMatch, hall]
  have hcomp : (collectAllSources (uaOnlyRequest ua)).userAgent = Component.ok ua := hua
  have hdet : detectUserAgent (collectAllSources (uaOnlyRequest ua))
      = some { bot := true, botKind := BotKindUnknown } := by
    unfold detectUserAgent
    simp only [hcomp, hfind, hsusp, if_true]
  unfold IsBotUserAgent
  simp [BotDetector.Collect, hdet]

/-- Witness for C4's amended theorem at the single-space user agent. -/
theorem whitespace_user_agent_flagged_witness :
    IsBotUserAgent " " = (true, BotKindUnknown) :=
  whitespace_user_agent_flagged " " (by decide) (by decide)

/-! ## C5 -/

/-- C5: over any request's collected bag, the missing-common-headers
detector flags an unclassified bot exactly when User-Agent is itself in the
missing list or at least 4 of the five commonly-expected headers are absent,
and reports non-bot otherwise. -/
theorem missing_headers_detector_policy (req : Request) :
    detectMissingHeaders (collectAllSources req) =
      some (if "User-Agent" ∈ commonHeadersList.filter (fun h => req.get h == "")
               ∨ 4 ≤ commonHeadersList.countP (fun h => req.get h == "")
            then { bot := true, botKind := BotKindUnknown }
            else { bot := false }) := by
  have hcomp : (collectAllSources req).missingCommonHeaders
      = Component.ok (commonHeadersList.filter (fun h => req.get h == "")) := rfl
  unfold detectMissingHeaders
  rw [List.countP_eq_length_filter]
  simp only [hcomp]
  by_cases h1 : (commonHeadersList.filter (fun h => req.get h == "")).contains "User-Agent"
  · have hm : "User-Agent" ∈ commonHeadersList.filter (fun h => req.get h == "") :=
      List.elem_iff.mp h1
    simp [h1, hm]
  · have hm : ¬ ("User-Agent" ∈ commonHeadersList.filter (fun h => req.get h == "")) :=
      fun hmem => h1 (List.elem_iff.mpr hmem)
    by_cases h2 : 4 ≤ (commonHeadersList.filter (fun h => req.get h == "")).length
    · simp [h1, h2, hm]
    · simp [h1, h2, hm]

/-! ## C8 -/

/-- C8: any user agent whose lower-cased form contains "gptbot" is
classified by the user-agent detector (through `IsBotUserAgent`) as a bot of
the GPTBot kind — the AI group precedes the generic "bot" group — and
`IsGPTAgent` reports it with the same kind; moreover `IsGPTAgent` reports
true only with a kind from the AI subset. -/
theorem gptbot_kind_and_ai_subset :
    (∀ ua : String, goContains (goToLower ua) "gptbot" = true →
        IsBotUserAgent ua = (true, BotKindGPTBot) ∧ IsGPTAgent ua = (true, BotKindGPTBot))
    ∧ (∀ ua : String, (IsGPTAgent ua).1 = true → (IsGPTAgent ua).2 ∈ aiKinds) := by
  constructor
  · intro ua hcont
    have hne : ua ≠ "" := by
      rintro rfl
      exact absurd hcont (by decide)
    have hget : (uaOnlyRequest ua).get "User-Agent" = ua := by
      simp [uaOnlyRequest, Request.get, List.find?]
    have hua : getUserAgent (uaOnlyRequest ua) = .ok ua := by
      simp [getUserAgent, hget, hne]
    have hcomp : (collectAllSources (uaOnlyRequest ua)).userAgent = Component.ok ua := hua
    have hfind :
        specificBots.find? (fun bt => bt.2.any (fun p => goContains (goToLower ua) p))
          = some (BotKindGPTBot, ["gptbot", "gpt-bot"]) := by
      have hp : (fun (bt : BotKind × List String) => bt.2.any (fun p => goContains (goToLower ua) p))
          (BotKindGPTBot, ["gptbot", "gpt-bot"]) = true := by
        simp [hcont]
      unfold specificBots
      exact List.find?_cons_of_pos _ hp
    have hbot : IsBotUserAgent ua = (true, BotKindGPTBot) := by
      have hdet : detectUserAgent (collectAllSources (uaOnlyRequest ua))
          = some { bot := true, botKind := BotKindGPTBot } := by
        unfold detectUserAgent
        simp only [hcomp, hfind]
      unfold IsBotUserAgent
      simp [BotDetector.Collect, hdet]
    refine ⟨hbot, ?_⟩
    unfold IsGPTAgent
    rw [hbot]
    decide
  · intro ua h
    unfold IsGPTAgent at h ⊢
    by_cases h1 : (IsBotUserAgent ua).1
    · by_cases h2 : ((IsBotUserAgent ua).2 == BotKindGPTBot
          || (IsBotUserAgent ua).2 == BotKindChatGPT
          || (IsBotUserAgent ua).2 == BotKindOpenAI
          || (IsBotUserAgent ua).2 == BotKindClaude
          || (IsBotUserAgent ua).2 == BotKindAIAgent)
      · simp only [h1, h2, Bool.not_true, Bool.false_eq_true, if_false, if_true]
        simp only [Bool.or_eq_true, beq_iff_eq] at h2
        simp only [aiKinds, List.mem_cons, List.not_mem_nil]
        tauto
      · simp [h1, h2] at h
    · simp [h1] at h

/-- Witness for C8 at the user agent "GPTBot/1.0". -/
theorem gptbot_kind_and_ai_subset_witness :
    (IsBotUserAgent "GPTBot/1.0" = (true, BotKindGPTBot)
      ∧ IsGPTAgent "GPTBot/1.0" = (true, BotKindGPTBot))
    ∧ (IsGPTAgent "GPTBot/1.0").2 ∈ aiKinds :=
  ⟨gptbot_kind_and_ai_subset.1 "GPTBot/1.0" (by decide),
   gptbot_kind_and_ai_subset.2 "GPTBot/1.0" (by decide)⟩

/-! ## C7 -/

/-- C7: a user agent not classified as bot that carries both an Edge token
and a Chrome token parses as the Edge browser with the Edge version — the
Edge pattern precedes the Chrome pattern in the first-match-wins pass. -/
theorem edge_wins_over_chrome (ua : String) (v : List Char)
    (hbot : (IsBotUserAgent (goTrimSpace ua)).1 = false)
    (hedge : edgeTokenFind (goToLower (goTrimSpace ua)).data = some v)
    (hchrome : (chromeTokenFind (goToLower (goTrimSpace ua)).data).isSome = true) :
    (ParseBrowserFromUserAgent ua).name = BrowserEdge ∧
    (ParseBrowserFromUserAgent ua).version = String.mk v := by
  have hne : ua ≠ "" := by
    rintro rfl
    rw [show edgeTokenFind (goToLower (goTrimSpace "")).data = none from rfl] at hedge
    exact Option.noConfusion hedge
  have hedge' : findTokenVersion ["edge/".data, "edga/".data, "edgios/".data, "edg/".data]
      (goToLower (goTrimSpace ua)).data = some v := hedge
  have hparse : parseBrowserNameAndVersion (goTrimSpace ua) = (BrowserEdge, String.mk v) := by
    unfold parseBrowserNameAndVersion primaryPatterns
    simp only [List.findSome?_cons, hedge', Option.map_some']
    simp [BrowserEdge, BrowserSafari]
  simp [ParseBrowserFromUserAgent, hne, hbot, hparse]

/-- Witness for C7 at the user agent "chrome/1 edg/2". -/
theorem edge_wins_over_chrome_witness :
    (IsBotUserAgent (goTrimSpace "chrome/1 edg/2")).1 = false
    ∧ edgeTokenFind (goToLower (goTrimSpace "chrome/1 edg/2")).data = some ['2']
    ∧ (chromeTokenFind (goToLower (goTrimSpace "chrome/1 edg/2")).data).isSome = true
    ∧ ((ParseBrowserFromUserAgent "chrome/1 edg/2").name = BrowserEdge ∧
       (ParseBrowserFromUserAgent "chrome/1 edg/2").version = String.mk ['2']) :=
  ⟨rfl, rfl, rfl, edge_wins_over_chrome "chrome/1 edg/2" ['2'] rfl rfl rfl⟩

/-! ## C10 -/

/-- C10: when the user-agent signature pass does not flag a request but the
full detector set does, `GetBrowserInfo` returns the parsed browser info
with `isBot` set and `botKind` copied from the detection result, while the
name and version stay exactly those of the browser-parsing pass. -/
theorem get_browser_info_overlay (req : Request)
    (h1 : (ParseBrowserFromRequest req).isBot = false)
    (h2 : (runDetectors getDefaultDetectors (collectAllSources req)).bot = true) :
    GetBrowserInfo req = .ok
      ({ ParseBrowserFromRequest req with
          isBot := true
          botKind := (runDetectors getDefaultDetectors (collectAllSources req)).botKind },
        runDetectors getDefaultDetectors (collectAllSources req), none) := by
  have hd : NewDetector.DetectFromRequest req
      = .ok (runDetectors getDefaultDetectors (collectAllSources req), none) :=
    detectFromRequest_eq NewDetector req
  unfold GetBrowserInfo
  rw [hd]
  simp [Except.map, h1, h2]

/-- Witness for C10 at a single-header Chrome-like request flagged only by
header-based detectors. -/
theorem get_browser_info_overlay_witness :
    (ParseBrowserFromRequest (uaOnlyRequest "chrome/120")).isBot = false
    ∧ (runDetectors getDefaultDetectors (collectAllSources (uaOnlyRequest "chrome/120"))).bot = true
    ∧ GetBrowserInfo (uaOnlyRequest "chrome/120") = .ok
        ({ ParseBrowserFromRequest (uaOnlyRequest "chrome/120") with
            isBot := true
            botKind := (runDetectors getDefaultDetectors
              (collectAllSources (uaOnlyRequest "chrome/120"))).botKind },
          runDetectors getDefaultDetectors (collectAllSources (uaOnlyRequest "chrome/120")), none) :=
  ⟨rfl, rfl, get_browser_info_overlay (uaOnlyRequest "chrome/120") rfl rfl⟩

/-! ## C1 -/

/-- Every positive verdict's flag is true. -/
theorem mem_positiveVerdicts_bot (ds : List (String × DetectorFunc)) (c : ComponentDict) :
    ∀ q ∈ positiveVerdicts ds c, q.2.bot = true := by
  intro q hq
  exact (List.mem_filter.mp hq).2

/-- Folding the optional replacement rule from an existing best. -/
theorem foldl_replaceBest_some (ps : List (String × BotDetectionResult))
    (b : BotDetectionResult) :
    ps.foldl replaceBest (some b) = some (ps.foldl chooseBest b) := by
  induction ps generalizing b with
  | nil => rfl
  | cons p ps ih => simp [List.foldl_cons, replaceBest, ih]

/-- The chosen best stays a positive verdict. -/
theorem foldl_chooseBest_bot (ps : List (String × BotDetectionResult))
    (b : BotDetectionResult) (hb : b.bot = true) (hps : ∀ q ∈ ps, q.2.bot = true) :
    (ps.foldl chooseBest b).bot = true := by
  induction ps generalizing b with
  | nil => exact hb
  | cons p ps ih =>
    rw [List.foldl_cons]
    apply ih
    · unfold chooseBest
      split
      · exact hps p (List.mem_cons_self p ps)
      · exact hb
    · intro q hq
      exact hps q (List.mem_cons_of_mem p hq)

/-- After the first positive verdict, the source's fold applies exactly the
replacement rule to the remaining positive verdicts. -/
theorem detectFold_after_first (c : ComponentDict) (ds : List (String × DetectorFunc))
    (k : BotKind) (b : BotDetectionResult) (hb : b.bot = true) :
    ds.foldl (detectFold c) ({ bot := true, botKind := k }, b)
      = ({ bot := true, botKind := k }, (positiveVerdicts ds c).foldl chooseBest b) := by
  induction ds generalizing b with
  | nil => simp [positiveVerdicts]
  | cons p ds ih =>
    rw [List.foldl_cons]
    by_cases hr : ((p.2 c).getD { bot := false }).bot
    · have hstep : detectFold c ({ bot := true, botKind := k }, b) p
          = ({ bot := true, botKind := k },
             chooseBest b (p.1, (p.2 c).getD { bot := false })) := by
        unfold detectFold chooseBest
        simp [hr, hb]
      have hb' : (chooseBest b (p.1, (p.2 c).getD { bot := false })).bot = true := by
        unfold chooseBest
        split
        · exact hr
        · exact hb
      rw [hstep, ih _ hb']
      have hpv : positiveVerdicts (p :: ds) c
          = (p.1, (p.2 c).getD { bot := false }) :: positiveVerdicts ds c := by
        simp [positiveVerdicts, List.filter_cons, hr]
      rw [hpv, List.foldl_cons]
    · have hstep : detectFold c ({ bot := true, botKind := k }, b) p
          = ({ bot := true, botKind := k }, b) := by
        unfold detectFold
        simp [hr]
      have hpv : positiveVerdicts (p :: ds) c = positiveVerdicts ds c := by
        simp [positiveVerdicts, List.filter_cons, hr]
      rw [hstep, ih _ hb, hpv]

/-- The source's fold from the start, by cases on the positive verdicts. -/
theorem detectFold_from_start (c : ComponentDict) (ds : List (String × DetectorFunc)) :
    ds.foldl (detectFold c) ({ bot := false }, { bot := false })
      = match positiveVerdicts ds c with
        | [] => ({ bot := false }, { bot := false })
        | q :: rest => ({ bot := true, botKind := "" }, rest.foldl chooseBest q.2) := by
  induction ds with
  | nil => rfl
  | cons p ds ih =>
    rw [List.foldl_cons]
    by_cases hr : ((p.2 c).getD { bot := false }).bot
    · have hstep : detectFold c ({ bot := false }, { bot := false }) p
          = ({ bot := true, botKind := "" }, (p.2 c).getD { bot := false }) := by
        unfold detectFold
        simp [hr]
      have hpv : positiveVerdicts (p :: ds) c
          = (p.1, (p.2 c).getD { bot := false }) :: positiveVerdicts ds c := by
        simp [positiveVerdicts, List.filter_cons, hr]
      rw [hstep, detectFold_after_first c ds "" _ hr, hpv]
    · have hstep : detectFold c ({ bot := false }, { bot := false }) p
          = ({ bot := false }, { bot := false }) := by
        unfold detectFold
        simp [hr]
      have hpv : positiveVerdicts (p :: ds) c = positiveVerdicts ds c := by
        simp [positiveVerdicts, List.filter_cons, hr]
      rw [hstep, ih, hpv]

/-- The resolver returns the verdict selected by the spec's policy (the
non-bot default when no detector fires). -/
theorem runDetectors_eq_selected (ds : List (String × DetectorFunc)) (c : ComponentDict) :
    runDetectors ds c = (selectedVerdict ds c).getD { bot := false } := by
  unfold runDetectors selectedVerdict
  rw [detectFold_from_start]
  cases hp : positiveVerdicts ds c with
  | nil => rfl
  | cons q rest =>
    have hq : q.2.bot = true :=
      mem_positiveVerdicts_bot ds c q (hp ▸ List.mem_cons_self q rest)
    have hrest : ∀ x ∈ rest, x.2.bot = true := fun x hx =>
      mem_positiveVerdicts_bot ds c x (hp ▸ List.mem_cons_of_mem q hx)
    have hbot : (rest.foldl chooseBest q.2).bot = true :=
      foldl_chooseBest_bot rest q.2 hq hrest
    simp only [List.foldl_cons]
    rw [show replaceBest none q = some q.2 from rfl, foldl_replaceBest_some,
        Option.getD_some]
    simp [hbot]

/-- The resolver reports a bot iff some registered detector does. -/
theorem runDetectors_bot_iff (ds : List (String × DetectorFunc)) (c : ComponentDict) :
    (runDetectors ds c).bot = true
      ↔ ∃ p ∈ ds, ((p.2 c).getD { bot := false }).bot = true := by
  rw [runDetectors_eq_selected]
  unfold selectedVerdict
  cases hp : positiveVerdicts ds c with
  | nil =>
    simp only [List.foldl_nil, Option.getD_none]
    constructor
    · intro h
      simp at h
    · rintro ⟨p, hpds, hps⟩
      have hnone := List.filter_eq_nil_iff.mp hp
      have hmem : (p.1, (p.2 c).getD { bot := false })
          ∈ ds.map (fun p => (p.1, (p.2 c).getD { bot := false })) :=
        List.mem_map.mpr ⟨p, hpds, rfl⟩
      exact absurd hps (hnone _ hmem)
  | cons q rest =>
    have hq : q.2.bot = true :=
      mem_positiveVerdicts_bot ds c q (hp ▸ List.mem_cons_self q rest)
    have hrest : ∀ x ∈ rest, x.2.bot = true := fun x hx =>
      mem_positiveVerdicts_bot ds c x (hp ▸ List.mem_cons_of_mem q hx)
    have hbot : (rest.foldl chooseBest q.2).bot = true :=
      foldl_chooseBest_bot rest q.2 hq hrest
    simp only [List.foldl_cons]
    rw [show replaceBest none q = some q.2 from rfl, foldl_replaceBest_some,
        Option.getD_some]
    constructor
    · intro _
      have hqmem : q ∈ positiveVerdicts ds c := hp ▸ List.mem_cons_self q rest
      obtain ⟨p, hpds, hpe⟩ := List.mem_map.mp (List.mem_filter.mp hqmem).1
      refine ⟨p, hpds, ?_⟩
      rw [show (p.2 c).getD { bot := false } = q.2 from congrArg Prod.snd hpe]
      exact hq
    · intro _
      exact hbot

/-- C1: over any collected bag, `Detect` returns the verdict the spec's
replacement rule selects over the detectors as iterated (non-bot with no
kind when no detector fires), and reports a bot iff at least one registered
detector returns a bot verdict. -/
theorem detect_resolution_policy (d : BotDetector) (c : ComponentDict)
    (h : d.components = some c) :
    d.Detect = .ok ((selectedVerdict d.detectorFuncs c).getD { bot := false })
    ∧ ((runDetectors d.detectorFuncs c).bot = true
        ↔ ∃ p ∈ d.detectorFuncs, ((p.2 c).getD { bot := false }).bot = true) := by
  constructor
  · simp only [BotDetector.Detect, h]
    rw [runDetectors_eq_selected]
  · exact runDetectors_bot_iff d.detectorFuncs c

/-- Witness for C1 over the bag collected from a curl request. -/
theorem detect_resolution_policy_witness :
    (BotDetector.Detect
        { components := some (collectAllSources (uaOnlyRequest "curl/7.68.0")),
          detectorFuncs := getDefaultDetectors }
      = .ok ((selectedVerdict getDefaultDetectors
          (collectAllSources (uaOnlyRequest "curl/7.68.0"))).getD { bot := false }))
    ∧ ((runDetectors getDefaultDetectors
          (collectAllSources (uaOnlyRequest "curl/7.68.0"))).bot = true
        ↔ ∃ p ∈ getDefaultDetectors,
            ((p.2 (collectAllSources (uaOnlyRequest "curl/7.68.0"))).getD
              { bot := false }).bot = true) :=
  detect_resolution_policy _ _ rfl

/-! ## C3 -/

/-- The amended spec's segment parse is the source's `parseVersionPart`. -/
theorem segmentValue_eq_parseVersionPart : segmentValue = parseVersionPart :=
  rfl

/-- Pairwise comparison of a segment list with itself is 0. -/
theorem lexCompare_self (l : List Int) : lexCompare l l = 0 := by
  induction l with
  | nil => rfl
  | cons a as ih => simp [lexCompare, ih]

/-- Zero-padding against the left list: the cons equation. -/
theorem lexCompare_cons_nil (a : Int) (as : List Int) :
    lexCompare (a :: as) []
      = if a < 0 then -1 else if 0 < a then 1 else lexCompare as [] := by
  cases as <;> rfl

/-- Zero-padding against the right list: the cons equation. -/
theorem lexCompare_nil_cons (b : Int) (bs : List Int) :
    lexCompare [] (b :: bs)
      = if 0 < b then -1 else if b < 0 then 1 else lexCompare [] bs :=
  rfl

/-- The source's index loop is the spec's pairwise comparison of the parsed
segment lists, from index `i` on. -/
theorem compareLoop_eq_lex (p1 p2 : List String) (i : Nat) :
    compareLoop p1 p2 i
      = lexCompare ((p1.map parseVersionPart).drop i) ((p2.map parseVersionPart).drop i) := by
  rw [compareLoop.eq_def]
  split
  · next hlt =>
    have ih := compareLoop_eq_lex p1 p2 (i + 1)
    by_cases h1 : i < p1.length <;> by_cases h2 : i < p2.length
    · have e1 : (p1.map parseVersionPart).drop i
          = parseVersionPart p1[i] :: (p1.map parseVersionPart).drop (i + 1) := by
        rw [List.drop_eq_getElem_cons (n := i) (by simpa using h1), List.getElem_map]
      have e2 : (p2.map parseVersionPart).drop i
          = parseVersionPart p2[i] :: (p2.map parseVersionPart).drop (i + 1) := by
        rw [List.drop_eq_getElem_cons (n := i) (by simpa using h2), List.getElem_map]
      rw [e1, e2]
      simp only [lexCompare, versionPartAt, if_pos h1, if_pos h2,
        List.getD_eq_getElem _ _ h1, List.getD_eq_getElem _ _ h2, ih, e1, e2]
    · have e1 : (p1.map parseVersionPart).drop i
          = parseVersionPart p1[i] :: (p1.map parseVersionPart).drop (i + 1) := by
        rw [List.drop_eq_getElem_cons (n := i) (by simpa using h1), List.getElem_map]
      have e2 : (p2.map parseVersionPart).drop i = [] :=
        List.drop_eq_nil_of_le (by simpa using Nat.le_of_not_lt h2)
      have e2' : (p2.map parseVersionPart).drop (i + 1) = [] :=
        List.drop_eq_nil_of_le (by simp only [List.length_map]; omega)
      rw [e1, e2, lexCompare_cons_nil]
      simp only [versionPartAt, if_pos h1, if_neg h2,
        List.getD_eq_getElem _ _ h1, ih, e2']
    · have e1 : (p1.map parseVersionPart).drop i = [] :=
        List.drop_eq_nil_of_le (by simpa using Nat.le_of_not_lt h1)
      have e1' : (p1.map parseVersionPart).drop (i + 1) = [] :=
        List.drop_eq_nil_of_le (by simp only [List.length_map]; omega)
      have e2 : (p2.map parseVersionPart).drop i
          = parseVersionPart p2[i] :: (p2.map parseVersionPart).drop (i + 1) := by
        rw [List.drop_eq_getElem_cons (n := i) (by simpa using h2), List.getElem_map]
      rw [e1, e2, lexCompare_nil_cons]
      simp only [versionPartAt, if_neg h1, if_pos h2,
        List.getD_eq_getElem _ _ h2, ih, e1']
    · rw [lt_max_iff] at hlt
      omega
  · next hge =>
    have e1 : (p1.map parseVersionPart).drop i = [] :=
      List.drop_eq_nil_of_le (by simp only [List.length_map]; omega)
    have e2 : (p2.map parseVersionPart).drop i = [] :=
      List.drop_eq_nil_of_le (by simp only [List.length_map]; omega)
    rw [e1, e2]
    rfl
termination_by max p1.length p2.length - i

/-- C3 counterexample: contrary to the claim, the empty version does not
compare strictly below the non-empty version "0" (the code returns 0), and
"1a2" compares below "3" (its segment parses as the first digit run 1, not
as 12 with non-numeric characters stripped, which would exceed 3). -/
theorem compare_versions_counterexample :
    compareVersions "" "0" = 0 ∧ compareVersions "1a2" "3" = -1 := by
  constructor
  · unfold compareVersions
    rw [if_neg (by decide), compareLoop_eq_lex]
    decide
  · unfold compareVersions
    rw [if_neg (by decide), compareLoop_eq_lex]
    decide

/-- C3 (amended): `compareVersions` realizes the numeric segment order:
split on '.', parse each dot-segment by folding its first contiguous digit
run into a 64-bit signed integer with wraparound (0 when the segment has no
digits or is missing), compare pairwise with implicit zero padding, first
unequal segment deciding — so the empty string compares equal to any
version whose segments all parse to 0 and below any version whose first
differing segment parses positive. -/
theorem compare_versions_eq_numeric (v1 v2 : String) :
    compareVersions v1 v2 = compareVersionsNumeric v1 v2 := by
  unfold compareVersions compareVersionsNumeric
  rw [segmentValue_eq_parseVersionPart]
  by_cases h : v1 = v2
  · subst h
    rw [if_pos rfl, lexCompare_self]
  · rw [if_neg h, compareLoop_eq_lex, List.drop_zero, List.drop_zero]

set_option maxRecDepth 8192 in
/-- The 64-bit wraparound of the segment fold is observable: a 19-digit
segment wraps negative, so it compares below "1", as the Go `int`
arithmetic of the source does. -/
theorem compare_versions_wraparound :
    parseVersionPart "9999999999999999999" = -8446744073709551617
    ∧ compareVersions "9999999999999999999" "1" = -1 := by
  constructor
  · decide
  · unfold compareVersions
    rw [if_neg (by decide), compareLoop_eq_lex]
    decide

end Gogobot
